import Mathlib

/-!
Shallow embedding of the on-demand trigger/download decision engine of the
podly-unicorn repository (src/app/routes/post_routes.py), together with
theorems settling the specification claims about it.

Strings that the code parses character by character (the HTTP `Range` header)
are modelled as `List Char`; all other string-valued fields use `String`.
Timestamps are seconds as `Nat`.  Database rows live in explicit lists inside
a `Store` value and every route handler is a pure function from its inputs and
the store to a response together with the updated store.
-/

namespace Podly

abbrev Chars := List Char

/-- `_PROBE_MAX_BYTES` from post_routes.py: Range requests whose end is below
this value are treated as probes. -/
def PROBE_MAX_BYTES : Nat := 1048576

/-- `_TRIGGER_COOLDOWN_SECONDS` from `_handle_trigger_processing`. -/
def TRIGGER_COOLDOWN_SECONDS : Nat := 600

/-! ### Python integer parsing

`_is_probe_request` converts the parts of the Range header with Python's
`int()`.  The parts can never contain a minus sign (they are produced by
splitting on "-"), so the relevant fragment of `int()` is: optional
surrounding white space (CPython's `Py_UNICODE_ISSPACE` set), an optional
leading plus sign, then Unicode decimal digits (category Nd, as CPython's
`Py_UNICODE_TODECIMAL` maps them) that may be separated by single
underscores. -/

/-- The white-space code points CPython's `int()` strips
(`Py_UNICODE_ISSPACE`): the ASCII spaces 09-0D and 20, plus NEL (0x85),
NO-BREAK SPACE (0xA0), OGHAM SPACE MARK, the EN QUAD through HAIR SPACE run,
LINE SEPARATOR, PARAGRAPH SEPARATOR, NARROW NO-BREAK SPACE, MEDIUM
MATHEMATICAL SPACE and IDEOGRAPHIC SPACE.  (The information separators
0x1C-0x1F are white space for `str.isspace` but not for `int()`.) -/
def pySpaceCodes : List Nat :=
  [9, 10, 11, 12, 13, 32, 0x85, 0xA0, 0x1680,
   0x2000, 0x2001, 0x2002, 0x2003, 0x2004, 0x2005, 0x2006, 0x2007, 0x2008,
   0x2009, 0x200A, 0x2028, 0x2029, 0x202F, 0x205F, 0x3000]

/-- White space as CPython's `int()` sees it. -/
def isPySpace (c : Char) : Bool := pySpaceCodes.contains c.toNat

/-- Strip leading and trailing `int()` white space. -/
def pyStrip (l : Chars) : Chars :=
  ((l.dropWhile isPySpace).reverse.dropWhile isPySpace).reverse

/-- Decimal value of an ASCII digit character. -/
def digitVal (c : Char) : Nat := c.toNat - 48

/-- First code points of the Unicode Nd decimal-digit blocks (Unicode 14.0,
the table CPython's unicodedata carries): every block is ten consecutive
code points holding the digit values 0 through 9, starting with the ASCII
digits at 48. -/
def ndBlockStarts : List Nat :=
  [48, 1632, 1776, 1984, 2406, 2534, 2662, 2790, 2918, 3046, 3174, 3302,
   3430, 3558, 3664, 3792, 3872, 4160, 4240, 6112, 6160, 6470, 6608, 6784,
   6800, 6992, 7088, 7232, 7248, 42528, 43216, 43264, 43472, 43504, 43600,
   44016, 65296, 66720, 68912, 69734, 69872, 69942, 70096, 70384, 70736,
   70864, 71248, 71360, 71472, 71904, 72016, 72784, 73040, 73120, 92768,
   92864, 93008, 120782, 120792, 120802, 120812, 120822, 123200, 123632,
   125264, 130032]

/-- CPython's `Py_UNICODE_TODECIMAL`: the decimal value of a Unicode decimal
digit, `none` for every other character. -/
def pyDecimal? (c : Char) : Option Nat :=
  if c.isDigit then some (c.toNat - 48)
  else
    match ndBlockStarts.find?
        (fun s => decide (s ≤ c.toNat) && decide (c.toNat < s + 10)) with
    | some s => some (c.toNat - s)
    | none => none

/-- Digits possibly separated by single underscores, continuing a number whose
value so far is `acc` (the C parsing loop tests whether each character has a
decimal value). -/
def pyDigitsAux (acc : Nat) : Chars → Option Nat
  | [] => some acc
  | c :: rest =>
    if (pyDecimal? c).isSome then
      pyDigitsAux (acc * 10 + (pyDecimal? c).getD 0) rest
    else if c == '_' then
      match rest with
      | [] => none
      | d :: rest2 =>
        if (pyDecimal? d).isSome then
          pyDigitsAux (acc * 10 + (pyDecimal? d).getD 0) rest2
        else none
    else none

/-- A non-empty digit string (underscore separators allowed between digits). -/
def pyDigits : Chars → Option Nat
  | [] => none
  | c :: rest =>
    if (pyDecimal? c).isSome then pyDigitsAux ((pyDecimal? c).getD 0) rest
    else none

/-- Python `int()` on a string that contains no minus sign: optional
surrounding white space, optional plus sign, digits. -/
def pyIntNonneg (l : Chars) : Option Nat :=
  match pyStrip l with
  | [] => none
  | c :: rest => if c == '+' then pyDigits rest else pyDigits (c :: rest)

/-- Python's `str.split('-')`. -/
def splitOnDash : Chars → List Chars
  | [] => [[]]
  | c :: rest =>
    if c == '-' then [] :: splitOnDash rest
    else
      match splitOnDash rest with
      | [] => [[c]]
      | h :: t => (c :: h) :: t

/-- `pattern.isPrefixOf`-style check, written out so its unfolding behaviour
is under our control: does `l` start with `pat`? -/
def listStartsWith : Chars → Chars → Bool
  | [], _ => true
  | _ :: _, [] => false
  | p :: ps, c :: cs => p == c && listStartsWith ps cs

/-- The characters of the literal `"bytes="`. -/
def bytesTag : Chars := "bytes=".data

/-- `_is_probe_request` from post_routes.py: decide whether a Range header is
a probe (small prefetch) rather than a real download. -/
def _is_probe_request (range_header : Option Chars) : Bool :=
  match range_header with
  | none => false
  | some l =>
    if l.isEmpty then false
    else if ! listStartsWith bytesTag l then false
    else
      let range_spec := l.drop 6
      if range_spec.contains ',' then false
      else
        match splitOnDash range_spec with
        | [start_str, end_str] =>
          match (if start_str.isEmpty then some 0 else pyIntNonneg start_str) with
          | none => false
          | some start =>
            if start > 0 then false
            else if end_str.isEmpty then false
            else
              match pyIntNonneg end_str with
              | none => false
              | some e => decide (e < PROBE_MAX_BYTES)
        | _ => false

/-- The probe classification as `api_download_post` computes it
(`is_probe = request_method == "HEAD" or _is_probe_request(range_header)`). -/
def classify_probe (method : String) (range_header : Option Chars) : Bool :=
  method == "HEAD" || _is_probe_request range_header

/-! ### Data model -/

/-- The fields of a feed access token the decision engine looks at, as the
authenticator returns them (`g.feed_token`): a `none` feed id is a combined
token, a `some` feed id a feed-scoped token. -/
structure FeedTokenAuthResult where
  feed_id : Option Nat
  user_id : Nat
deriving DecidableEq

/-- The episode fields the engine reads. -/
structure Post where
  guid : String
  feed_id : Option Nat
  whitelisted : Bool
  processed_audio_path : Option String
deriving DecidableEq

/-- A row of the `processing_job` table. -/
structure ProcessingJob where
  id : Nat
  post_guid : String
  status : String
  trigger_source : String
  triggered_by_user_id : Option Nat
  created_at : Option Nat
  current_step : Option Int
  total_steps : Option Int
  step_name : Option String
  progress_percentage : Option Int
  error_message : Option String
  updated_at : Option Nat
deriving DecidableEq

/-- A row of the `user_download` audit table (`_record_user_event` /
`_track_user_download`). -/
structure EventRec where
  user_id : Option Nat
  post_guid : String
  event_type : String
  auth_type : String
  decision : String
  download_source : String
deriving DecidableEq

/-- The durable state the handlers read and write: the job table, the audit
event table, the download-counter bumps, the storage backend's files, and the
id the next job row receives. -/
structure Store where
  jobs : List ProcessingJob
  events : List EventRec
  download_bumps : List String
  files : List String
  next_job_id : Nat
deriving DecidableEq

/-- `post.processed_audio_path and Path(post.processed_audio_path).exists()`. -/
def postIsReady (st : Store) (post : Post) : Bool :=
  match post.processed_audio_path with
  | none => false
  | some p => decide (p ≠ "") && st.files.contains p

/-- Status strings counted as an active job. -/
def isActiveStatus (s : String) : Bool := s == "pending" || s == "running"

/-- `ProcessingJob.query.filter(post_guid == guid, status.in_(["pending", "running"])).first()`. -/
def findActiveJob (jobs : List ProcessingJob) (guid : String) : Option ProcessingJob :=
  jobs.find? (fun j => j.post_guid == guid && isActiveStatus j.status)

/-- Sort key for `order_by(created_at.desc())`: rows with a null `created_at`
sort last. -/
def createdAtKey (j : ProcessingJob) : Nat :=
  match j.created_at with
  | some t => t + 1
  | none => 0

/-- `ProcessingJob.query.filter(post_guid == guid).order_by(created_at.desc()).first()`. -/
def latestJob (jobs : List ProcessingJob) (guid : String) : Option ProcessingJob :=
  (jobs.filter (fun j => j.post_guid == guid)).foldl
    (fun acc j =>
      match acc with
      | none => some j
      | some b => if createdAtKey j > createdAtKey b then some j else some b)
    none

/-- `_record_user_event`: append an audit row (fire and forget). -/
def _record_user_event (st : Store) (post : Post) (uid : Option Nat)
    (event_type auth_type decision download_source : String) : Store :=
  { st with
    events :=
      { user_id := uid, post_guid := post.guid, event_type := event_type,
        auth_type := auth_type, decision := decision,
        download_source := download_source } :: st.events }

/-- `_track_user_download`: record a successful audio download for the current
user, if any. -/
def _track_user_download (st : Store) (post : Post) (current_user : Option Nat)
    (feed_token : Option FeedTokenAuthResult) : Store :=
  match current_user with
  | none => st
  | some uid =>
    let download_source := if feed_token.isSome then "rss" else "web"
    let auth_type :=
      match feed_token with
      | some t => if t.feed_id.isNone then "combined" else "feed_scoped"
      | none => "session"
    { st with
      events :=
        { user_id := some uid, post_guid := post.guid,
          event_type := "AUDIO_DOWNLOAD", auth_type := auth_type,
          decision := "SERVED_AUDIO", download_source := download_source }
        :: st.events }

/-! ### The download entry point (`api_download_post`) -/

/-- The auth classification computed inline in `api_download_post`. -/
structure AuthClass where
  auth_type : String
  is_authorized_to_read : Bool
  can_trigger_processing : Bool
deriving DecidableEq

/-- The "DETERMINE AUTH TYPE" block of `api_download_post`: a combined token
reads but never triggers, a feed-scoped token matching the post's feed reads
and triggers, a mismatched feed-scoped token gets nothing, and a session user
reads and triggers when subscribed to the post's feed. -/
def classifyDownloadAuth (feed_token : Option FeedTokenAuthResult)
    (current_user : Option Nat) (subscriptions : List (Nat × Nat))
    (post : Post) : AuthClass :=
  match feed_token with
  | some tok =>
    match tok.feed_id with
    | none => ⟨"combined", true, false⟩
    | some f =>
      if post.feed_id == some f then ⟨"feed_scoped", true, true⟩
      else ⟨"feed_scoped_mismatch", false, false⟩
  | none =>
    match current_user with
    | some uid =>
      match post.feed_id with
      | some fid =>
        if decide (fid ≠ 0) && subscriptions.contains (uid, fid) then
          ⟨"session", true, true⟩
        else ⟨"none", false, false⟩
      | none => ⟨"none", false, false⟩
    | none => ⟨"none", false, false⟩

/-- An HTTP response of the download endpoint: status code, body, the
`Retry-After` header when set, and the decision tag the handler logs. -/
structure HttpResponse where
  status : Nat
  body : String
  retry_after : Option Nat
  decision : String
deriving DecidableEq

/-- `api_download_post` from post_routes.py.  The episode lookup, whitelist
gate, probe classification, auth classification and readiness check feed the
decision ladder; note that the handler never writes to the job table: when the
episode is not ready, not probed, and the caller may trigger, it only reports
503 (JOB_EXISTS with Retry-After 120, or NOT_PROCESSED with Retry-After 300
pointing the user at the trigger link). -/
def api_download_post (posts : List Post) (p_guid : String)
    (current_user : Option Nat) (feed_token : Option FeedTokenAuthResult)
    (subscriptions : List (Nat × Nat)) (method : String)
    (range_header : Option Chars) (st : Store) : HttpResponse × Store :=
  match posts.find? (fun p => p.guid == p_guid) with
  | none => (⟨404, "Post not found", none, "NOT_FOUND"⟩, st)
  | some post =>
    if ! post.whitelisted then
      (⟨403, "Post not whitelisted", none, "NOT_WHITELISTED"⟩, st)
    else
      let is_probe := classify_probe method range_header
      let auth := classifyDownloadAuth feed_token current_user subscriptions post
      let is_processed := postIsReady st post
      if is_processed then
        if ! auth.is_authorized_to_read then
          (⟨401, "Authentication required", none, "NOT_AUTHORIZED_READ"⟩, st)
        else
          let st1 := { st with download_bumps := post.guid :: st.download_bumps }
          let st2 := _track_user_download st1 post current_user feed_token
          (⟨200, "audio", none, "SERVED_AUDIO"⟩, st2)
      else
        if is_probe then
          (⟨204, "", none, "PROBE"⟩, st)
        else if ! auth.is_authorized_to_read then
          (⟨401, "Authentication required", none, "NOT_AUTHORIZED"⟩, st)
        else if ! auth.can_trigger_processing then
          let st1 := _record_user_event st post current_user "FAILED"
            auth.auth_type "NOT_READY_NO_TRIGGER" "rss"
          (⟨503, "Episode not yet processed", some 300, "NO_TRIGGER_COMBINED"⟩, st1)
        else
          match findActiveJob st.jobs post.guid with
          | some _ =>
            (⟨503, "Processing in progress", some 120, "JOB_EXISTS"⟩, st)
          | none =>
            (⟨503,
              "Episode not yet processed. Click the episode link in your podcast app to start processing.",
              some 300, "NOT_PROCESSED"⟩, st)

/-- Run a sequence of requests against the download endpoint with a fixed
caller and episode, threading the store. -/
def runDownloadRequests (posts : List Post) (p_guid : String)
    (current_user : Option Nat) (feed_token : Option FeedTokenAuthResult)
    (subscriptions : List (Nat × Nat)) (reqs : List (String × Option Chars))
    (st : Store) : List HttpResponse × Store :=
  match reqs with
  | [] => ([], st)
  | (m, r) :: rest =>
    let out := api_download_post posts p_guid current_user feed_token
      subscriptions m r st
    let outs := runDownloadRequests posts p_guid current_user feed_token
      subscriptions rest out.2
    (out.1 :: outs.1, outs.2)

/-! ### The job manager handoff and the manual process entry point -/

/-- Modelled from the spec: `JobsManager.start_post_processing`
(src/app/jobs_manager.py) is not among the sources, only its callers are.
Per §6 the job manager exposes
`enqueue(postGuid, priority, triggeredByUserId, triggerSource) -> jobId`, and
per the §3 ProcessingJob invariant the external job manager enforces
at-most-one active job per guid, so an existing pending/running job is
returned as is; otherwise a new pending job carrying the given trigger source,
user and creation time is appended to the durable job table. -/
def start_post_processing (st : Store) (guid : String) (now : Nat)
    (triggered_by_user_id : Option Nat) (trigger_source : String) :
    Nat × Store :=
  match findActiveJob st.jobs guid with
  | some j => (j.id, st)
  | none =>
    let j : ProcessingJob :=
      { id := st.next_job_id, post_guid := guid, status := "pending",
        trigger_source := trigger_source,
        triggered_by_user_id := triggered_by_user_id,
        created_at := some now, current_step := none, total_steps := none,
        step_name := none, progress_percentage := none, error_message := none,
        updated_at := none }
    (j.id, { st with jobs := j :: st.jobs, next_job_id := st.next_job_id + 1 })

/-- A rendered page or JSON outcome identified by status code and title. -/
structure PageResponse where
  status : Nat
  title : String
deriving DecidableEq

/-- `api_process_post` from post_routes.py: the manual "process" button.
Looks up the post, gates on the whitelist, reports completion when processed
audio already exists, and otherwise hands off to the job manager with
`trigger_source = "manual_ui"` — with no cooldown check of its own. -/
def api_process_post (posts : List Post) (p_guid : String)
    (current_user : Option Nat) (now : Nat) (st : Store) :
    PageResponse × Store :=
  match posts.find? (fun p => p.guid == p_guid) with
  | none => (⟨404, "NOT_FOUND"⟩, st)
  | some post =>
    if ! post.whitelisted then (⟨400, "NOT_WHITELISTED"⟩, st)
    else if postIsReady st post then (⟨200, "completed"⟩, st)
    else
      let out := start_post_processing st p_guid now current_user "manual_ui"
      (⟨200, "started"⟩, out.2)

/-! ### The trigger entry point (`_handle_trigger_processing`) -/

/-- Outcome of `authenticate_feed_token` as the trigger handler sees it: the
call raised, returned `None`, or returned a token result. -/
inductive AuthOutcome where
  | exn : AuthOutcome
  | invalid : AuthOutcome
  | ok : FeedTokenAuthResult → AuthOutcome
deriving DecidableEq

/-- A query parameter is missing when absent or empty (Python truthiness of
`flask.request.args.get`). -/
def paramMissing : Option String → Bool
  | none => true
  | some s => s == ""

/-- The job-creating tail of `_handle_trigger_processing`: hand off to the job
manager with `trigger_source = "trigger_link"`, then record the
PROCESS_STARTED audit event. -/
def triggerStartJob (a : FeedTokenAuthResult) (post : Post) (now : Nat)
    (st : Store) : PageResponse × Store :=
  let out := start_post_processing st post.guid now (some a.user_id) "trigger_link"
  let st2 := _record_user_event out.2 post (some a.user_id) "PROCESS_STARTED"
    "feed_scoped" "TRIGGERED" "trigger"
  (⟨200, "Processing Started"⟩, st2)

/-- `_handle_trigger_processing` from post_routes.py: parameter validation,
token authentication, the combined-token rejection, post lookup, the
feed-match and whitelist gates, the TRIGGER_OPEN audit event, then
ready / existing-job / cooldown / start-job resolution. -/
def _handle_trigger_processing (guid token_id secret : Option String)
    (auth : AuthOutcome) (posts : List Post) (now : Nat) (st : Store) :
    PageResponse × Store :=
  if paramMissing guid || paramMissing token_id || paramMissing secret then
    (⟨400, "Missing Parameters"⟩, st)
  else
    match auth with
    | .exn => (⟨401, "Authentication Error"⟩, st)
    | .invalid => (⟨403, "Invalid Token"⟩, st)
    | .ok a =>
      match a.feed_id with
      | none => (⟨403, "Cannot Trigger from Combined Feed"⟩, st)
      | some token_feed =>
        match posts.find? (fun p => p.guid == guid.getD "") with
        | none => (⟨404, "Episode Not Found"⟩, st)
        | some post =>
          if ! (post.feed_id == some token_feed) then
            (⟨403, "Access Denied"⟩, st)
          else if ! post.whitelisted then
            (⟨409, "Episode Not Enabled"⟩, st)
          else
            let st1 := _record_user_event st post (some a.user_id)
              "TRIGGER_OPEN" "feed_scoped" "" "trigger"
            if postIsReady st1 post then (⟨200, "Episode Ready"⟩, st1)
            else
              match findActiveJob st1.jobs post.guid with
              | some _ => (⟨200, "Processing In Progress"⟩, st1)
              | none =>
                match latestJob st1.jobs post.guid with
                | some last_job =>
                  match last_job.created_at with
                  | some t =>
                    if now - t < TRIGGER_COOLDOWN_SECONDS then
                      (⟨200, "Please Wait"⟩, st1)
                    else triggerStartJob a post now st1
                  | none => triggerStartJob a post now st1
                | none => triggerStartJob a post now st1

/-! ### The status projection (`_normalize_job`) -/

/-- The fixed step-index to step-name table of `_normalize_job`. -/
def STEP_NAMES (i : Int) : Option String :=
  if i = 0 then some "Initializing"
  else if i = 1 then some "Downloading"
  else if i = 2 then some "Transcribing"
  else if i = 3 then some "Detecting Ads"
  else if i = 4 then some "Processing Audio"
  else none

/-- The JSON payload `_normalize_job` produces. -/
structure NormalizedJob where
  state : String
  processed : Bool
  download_url : Option String
  message : String
  id : Nat
  job_status : String
  current_step : Int
  total_steps : Int
  step_name : String
  progress_percentage : Int
  created_at : Option Nat
  updated_at : Option Nat
  error_message : Option String
deriving DecidableEq

/-- `_normalize_job` from post_routes.py: project a job row into a total,
client-safe payload.  Division in the derived-progress branch is real division
truncated toward zero, as Python's `int()` computes it. -/
def _normalize_job (job : ProcessingJob) (download_url : Option String) :
    NormalizedJob :=
  let current_step : Int := job.current_step.getD 0
  let total_steps : Int :=
    match job.total_steps with
    | some t => if t ≠ 0 ∧ t > 0 then t else 4
    | none => 4
  let step_name : String :=
    match job.step_name with
    | some s => if s ≠ "" then s else (STEP_NAMES current_step).getD "Processing"
    | none => (STEP_NAMES current_step).getD "Processing"
  let progress : Int :=
    match job.progress_percentage with
    | some p => max 0 (min 100 p)
    | none =>
      if total_steps > 0 then min 100 ((current_step * 100).tdiv total_steps)
      else 0
  let state : String :=
    if job.status == "running" then "processing"
    else if job.status == "pending" then "queued"
    else if job.status == "completed" then "ready"
    else if job.status == "failed" then "failed"
    else "processing"
  { state := state
    processed := job.status == "completed"
    download_url := download_url
    message := "Step " ++ toString current_step ++ "/" ++ toString total_steps
      ++ ": " ++ step_name
    id := job.id
    job_status := if job.status == "" then "unknown" else job.status
    current_step := current_step
    total_steps := total_steps
    step_name := step_name
    progress_percentage := progress
    created_at := job.created_at
    updated_at := job.updated_at
    error_message := job.error_message }

/-! ### The status polling endpoint (`trigger_status`) -/

/-- A JSON response of `/api/trigger/status`: status code, the projected
state, message, flags, optional normalized job payload, and the
`Cache-Control` header. -/
structure StatusResponse where
  status : Nat
  state : String
  message : String
  processed : Bool
  download_url : Option String
  job : Option NormalizedJob
  cache_control : Option String
deriving DecidableEq

/-- `_handle_trigger_status` from post_routes.py: parameter validation, token
authentication (including the caught auth exception), combined-token
rejection, post lookup, feed match, then ready / active-job / failed-job /
not-started resolution.  Every branch sets `Cache-Control: no-store`. -/
def _handle_trigger_status (guid token_id secret : Option String)
    (auth : AuthOutcome) (posts : List Post) (st : Store) : StatusResponse :=
  if paramMissing guid || paramMissing token_id || paramMissing secret then
    ⟨400, "error", "Missing required parameters", false, none, none, some "no-store"⟩
  else
    match auth with
    | .exn => ⟨401, "error", "Authentication failed", false, none, none, some "no-store"⟩
    | .invalid => ⟨401, "error", "Invalid or expired token", false, none, none, some "no-store"⟩
    | .ok a =>
      match a.feed_id with
      | none => ⟨403, "error", "Combined tokens not allowed", false, none, none, some "no-store"⟩
      | some token_feed =>
        match posts.find? (fun p => p.guid == guid.getD "") with
        | none => ⟨404, "not_found", "Episode not found", false, none, none, some "no-store"⟩
        | some post =>
          if ! (post.feed_id == some token_feed) then
            ⟨403, "error", "Token not authorized for this episode", false, none,
              none, some "no-store"⟩
          else
            let download_url := "/api/posts/" ++ post.guid ++ "/download?feed_token="
              ++ token_id.getD "" ++ "&feed_secret=" ++ secret.getD ""
            if postIsReady st post then
              ⟨200, "ready", "Episode is ready to download", true,
                some download_url, none, some "no-store"⟩
            else
              match findActiveJob st.jobs post.guid with
              | some job =>
                let n := _normalize_job job (some download_url)
                ⟨200, n.state, n.message, n.processed, n.download_url, some n,
                  some "no-store"⟩
              | none =>
                match latestJob st.jobs post.guid with
                | some last_job =>
                  if last_job.status == "failed" then
                    let n := _normalize_job last_job none
                    let msg := "Processing failed: " ++
                      (match last_job.error_message with
                       | some e => if e ≠ "" then e else "Unknown error"
                       | none => "Unknown error")
                    ⟨200, n.state, msg, n.processed, n.download_url,
                      some { n with message := msg }, some "no-store"⟩
                  else
                    ⟨200, "not_started", "Episode has not been processed yet",
                      false, none, none, some "no-store"⟩
                | none =>
                  ⟨200, "not_started", "Episode has not been processed yet",
                    false, none, none, some "no-store"⟩

/-- `trigger_status` from post_routes.py: the route wrapper.  OPTIONS
preflight answers immediately; otherwise the inner handler runs inside a
try/except whose catch-all converts any unexpected fault — modelled by the
`fault` input — into a 200 JSON body with `state = "error"` so the polling UI
keeps functioning; the catch branch also sets `Cache-Control: no-store`. -/
def trigger_status (method : String) (guid token_id secret : Option String)
    (auth : AuthOutcome) (posts : List Post) (st : Store)
    (fault : Option Unit) : StatusResponse :=
  if method == "OPTIONS" then
    ⟨200, "", "", false, none, none, some "no-store"⟩
  else
    match fault with
    | some _ =>
      ⟨200, "error", "Temporary error, retrying...", false, none, none,
        some "no-store"⟩
    | none => _handle_trigger_status guid token_id secret auth posts st

/-! ### Spec-side definitions and concrete sample values -/

/-- All characters are decimal digits. -/
def allDigits (l : Chars) : Bool := l.all (fun c => c.isDigit)

/-- The numeric value of a decimal digit string. -/
def decimalValue (l : Chars) : Nat :=
  l.foldl (fun a c => a * 10 + digitVal c) 0

/-- The probe classification exactly as §4.2 of the specification words it:
`HEAD` is a probe; a header of the shape `bytes=<start>-<end>` with `<start>`
a digit string of value 0 and `<end>` a present digit string of value below
1 MiB is a probe; everything else (no header, `bytes=0-`, a positive start, a
large end, multiple ranges, or malformed syntax) is real. -/
def spec_is_probe (method : String) (range_header : Option Chars) : Bool :=
  method == "HEAD" ||
  match range_header with
  | none => false
  | some l =>
    if listStartsWith bytesTag l then
      match splitOnDash (l.drop 6) with
      | [s, e] =>
        allDigits s && ! s.isEmpty && decimalValue s == 0 &&
        allDigits e && ! e.isEmpty && decide (decimalValue e < PROBE_MAX_BYTES)
      | _ => false
    else false

/-- A whitelisted, not yet processed episode of feed 1. -/
def samplePost : Post :=
  { guid := "ep-1", feed_id := some 1, whitelisted := true,
    processed_audio_path := none }

/-- A feed-scoped token for feed 1 held by user 7. -/
def sampleToken : FeedTokenAuthResult := { feed_id := some 1, user_id := 7 }

/-- A combined token (`feed_id = None`) held by user 7. -/
def combinedToken : FeedTokenAuthResult := { feed_id := none, user_id := 7 }

/-- A feed-scoped token for feed 2 (not the feed of `samplePost`). -/
def mismToken : FeedTokenAuthResult := { feed_id := some 2, user_id := 7 }

/-- A store with no jobs, no events and no files. -/
def emptyStore : Store :=
  { jobs := [], events := [], download_bumps := [], files := [],
    next_job_id := 1 }

/-- A job for `ep-1` that completed, created at time 1000. -/
def doneJob : ProcessingJob :=
  { id := 0, post_guid := "ep-1", status := "completed",
    trigger_source := "trigger_link", triggered_by_user_id := some 7,
    created_at := some 1000, current_step := none, total_steps := none,
    step_name := none, progress_percentage := none, error_message := none,
    updated_at := none }

/-- A pending job for `ep-1` created at time 1000. -/
def pendingJob : ProcessingJob :=
  { doneJob with id := 3, status := "pending" }

/-- A store whose job table holds one completed job for `ep-1` created at
time 1000. -/
def cooldownStore : Store := { emptyStore with jobs := [doneJob] }

/-- A store whose job table holds one pending job for `ep-1`. -/
def activeJobStore : Store := { emptyStore with jobs := [pendingJob] }

/-- A store whose only job for `ep-1` completed long ago (created at 100). -/
def oldJobStore : Store :=
  { emptyStore with jobs := [{ doneJob with created_at := some 100 }] }

/-- A running job whose nullable fields are null except for a negative
`current_step`. -/
def negStepJob : ProcessingJob :=
  { id := 5, post_guid := "ep-1", status := "running",
    trigger_source := "manual_ui", triggered_by_user_id := none,
    created_at := none, current_step := some (-1), total_steps := none,
    step_name := none, progress_percentage := none, error_message := none,
    updated_at := none }

/-- A pending job whose nullable fields are all null. -/
def blankJob : ProcessingJob :=
  { id := 6, post_guid := "ep-1", status := "pending",
    trigger_source := "manual_ui", triggered_by_user_id := none,
    created_at := none, current_step := none, total_steps := none,
    step_name := none, progress_percentage := none, error_message := none,
    updated_at := none }

/-! ### Helper lemmas -/

theorem listStartsWith_append (p t : Chars) : listStartsWith p (p ++ t) = true := by
  induction p with
  | nil => rfl
  | cons c cs ih => simp [listStartsWith, ih]

theorem listStartsWith_iff {p l : Chars} :
    listStartsWith p l = true ↔ ∃ t, l = p ++ t := by
  induction p generalizing l with
  | nil => simp [listStartsWith]
  | cons c cs ih =>
    cases l with
    | nil => simp [listStartsWith]
    | cons d ds =>
      simp only [listStartsWith, Bool.and_eq_true, beq_iff_eq, ih,
        List.cons_append, List.cons.injEq]
      constructor
      · rintro ⟨h1, t, h2⟩
        exact ⟨t, h1.symm, h2⟩
      · rintro ⟨t, h1, h2⟩
        exact ⟨h1.symm, t, h2⟩

theorem drop_six (t : Chars) : (bytesTag ++ t).drop 6 = t := rfl

theorem splitOnDash_no_dash {l : Chars} (h : ∀ c ∈ l, (c == '-') = false) :
    splitOnDash l = [l] := by
  induction l with
  | nil => rfl
  | cons c cs ih =>
    have hc := h c (by simp)
    have ih' := ih (fun d hd => h d (by simp [hd]))
    simp [splitOnDash, hc, ih']

theorem digit_beq_false {c d : Char} (h : c.isDigit = true)
    (hd : d.isDigit = false) : (c == d) = false := by
  cases hcd : c == d with
  | false => rfl
  | true =>
    have hcd' : c = d := eq_of_beq hcd
    rw [hcd', hd] at h
    exact absurd h (by simp)

theorem contains_false_iff {α : Type} [BEq α] [LawfulBEq α]
    {l : List α} {a : α} : l.contains a = false ↔ ¬ a ∈ l := by
  rw [← Bool.not_eq_true, List.elem_iff]

theorem isDigit_toNat {c : Char} (h : c.isDigit = true) :
    48 ≤ c.toNat ∧ c.toNat ≤ 57 := by
  simp only [Char.isDigit, Bool.and_eq_true, decide_eq_true_eq] at h
  exact ⟨h.1, h.2⟩

theorem pyDecimal_ascii {c : Char} (h : c.isDigit = true) :
    pyDecimal? c = some (digitVal c) := by
  simp [pyDecimal?, h, digitVal]

theorem digit_not_space {c : Char} (h : c.isDigit = true) : isPySpace c = false := by
  obtain ⟨h1, h2⟩ := isDigit_toNat h
  unfold isPySpace
  rw [contains_false_iff]
  intro hm
  simp [pySpaceCodes] at hm
  omega

theorem dropWhile_all_false {p : Char → Bool} {l : Chars}
    (h : ∀ c ∈ l, p c = false) : l.dropWhile p = l := by
  cases l with
  | nil => rfl
  | cons c cs => simp [List.dropWhile_cons, h c (by simp)]

theorem pyStrip_digits {l : Chars} (h : ∀ c ∈ l, c.isDigit = true) :
    pyStrip l = l := by
  have h' : ∀ c ∈ l, isPySpace c = false := fun c hc => digit_not_space (h c hc)
  unfold pyStrip
  rw [dropWhile_all_false h',
    dropWhile_all_false (fun c hc => h' c (List.mem_reverse.mp hc)),
    List.reverse_reverse]

theorem pyDigitsAux_all_digits {l : Chars} (h : ∀ c ∈ l, c.isDigit = true) :
    ∀ acc, pyDigitsAux acc l
      = some (l.foldl (fun a c => a * 10 + digitVal c) acc) := by
  induction l with
  | nil => intro acc; rfl
  | cons c cs ih =>
    intro acc
    have hc := h c (by simp)
    have h' : ∀ d ∈ cs, d.isDigit = true :=
      fun d hd => h d (List.mem_cons_of_mem _ hd)
    rw [pyDigitsAux.eq_def]
    dsimp only
    rw [pyDecimal_ascii hc]
    simp [ih h']

theorem pyIntNonneg_nil : pyIntNonneg [] = none := rfl

theorem pyIntNonneg_all_digits {l : Chars} (hne : l ≠ [])
    (h : ∀ c ∈ l, c.isDigit = true) : pyIntNonneg l = some (decimalValue l) := by
  unfold pyIntNonneg
  rw [pyStrip_digits h]
  cases l with
  | nil => exact absurd rfl hne
  | cons c cs =>
    have hc : c.isDigit = true := h c (by simp)
    have h' : ∀ d ∈ cs, d.isDigit = true :=
      fun d hd => h d (List.mem_cons_of_mem _ hd)
    have hplus : (c == '+') = false :=
      digit_beq_false hc (show ('+' : Char).isDigit = false by decide)
    simp only [hplus, Bool.false_eq_true, if_false]
    rw [pyDigits.eq_def]
    dsimp only
    rw [pyDecimal_ascii hc]
    simp only [Option.isSome_some, Option.getD_some, if_true]
    rw [pyDigitsAux_all_digits h']
    simp [decimalValue, digitVal]

theorem postIsReady_files_congr {st st' : Store} (post : Post)
    (h : st'.files = st.files) : postIsReady st' post = postIsReady st post := by
  unfold postIsReady
  cases post.processed_audio_path <;> simp [h]

theorem record_user_event_jobs (st : Store) (post : Post) (uid : Option Nat)
    (a b c d : String) : (_record_user_event st post uid a b c d).jobs = st.jobs := rfl

theorem track_user_download_jobs (st : Store) (post : Post)
    (cu : Option Nat) (ft : Option FeedTokenAuthResult) :
    (_track_user_download st post cu ft).jobs = st.jobs := by
  unfold _track_user_download
  cases cu <;> rfl

theorem api_download_post_jobs (posts : List Post) (p_guid : String)
    (cu : Option Nat) (ft : Option FeedTokenAuthResult)
    (subs : List (Nat × Nat)) (method : String) (range_header : Option Chars)
    (st : Store) :
    (api_download_post posts p_guid cu ft subs method range_header st).2.jobs = st.jobs := by
  unfold api_download_post _track_user_download _record_user_event
  dsimp only
  repeat' (first | rfl | split)

theorem api_download_post_files (posts : List Post) (p_guid : String)
    (cu : Option Nat) (ft : Option FeedTokenAuthResult)
    (subs : List (Nat × Nat)) (method : String) (range_header : Option Chars)
    (st : Store) :
    (api_download_post posts p_guid cu ft subs method range_header st).2.files = st.files := by
  unfold api_download_post _track_user_download _record_user_event
  dsimp only
  repeat' (first | rfl | split)

theorem canTrigger_imp_read (ft : Option FeedTokenAuthResult)
    (cu : Option Nat) (subs : List (Nat × Nat)) (post : Post)
    (h : (classifyDownloadAuth ft cu subs post).can_trigger_processing = true) :
    (classifyDownloadAuth ft cu subs post).is_authorized_to_read = true := by
  revert h
  unfold classifyDownloadAuth
  repeat' split
  all_goals first | rfl | simp_all

theorem findActiveJob_of_mem {jobs : List ProcessingJob} {guid : String}
    (h : ∃ j ∈ jobs, j.post_guid = guid ∧ (j.status = "pending" ∨ j.status = "running")) :
    ∃ j, findActiveJob jobs guid = some j := by
  have hs : (findActiveJob jobs guid).isSome := by
    unfold findActiveJob
    rw [List.find?_isSome]
    obtain ⟨j, hm, hg, hst⟩ := h
    refine ⟨j, hm, ?_⟩
    rcases hst with h1 | h1 <;> simp [hg, isActiveStatus, h1]
  exact Option.isSome_iff_exists.mp hs

/-- Single-call shape of a combined-token, non-probe request against a found,
whitelisted, not-ready episode: a 503 read-only refusal with Retry-After 300
that only appends the FAILED audit event. -/
theorem combined_token_refusal (posts : List Post) (p_guid : String)
    (cu : Option Nat) (tok : FeedTokenAuthResult) (subs : List (Nat × Nat))
    (method : String) (range_header : Option Chars) (st : Store) (post : Post)
    (hfind : posts.find? (fun p => p.guid == p_guid) = some post)
    (hwl : post.whitelisted = true)
    (hnr : postIsReady st post = false)
    (hcomb : tok.feed_id = none)
    (hnp : classify_probe method range_header = false) :
    api_download_post posts p_guid cu (some tok) subs method range_header st
      = (⟨503, "Episode not yet processed", some 300, "NO_TRIGGER_COMBINED"⟩,
         _record_user_event st post cu "FAILED" "combined" "NOT_READY_NO_TRIGGER" "rss") := by
  unfold api_download_post
  rw [hfind]
  dsimp only
  simp [hwl, hnr, hnp, classifyDownloadAuth, hcomb]

/-! ### Claim theorems -/

/-- Claim C1, counterexample: an authorized full `GET` (valid feed-scoped
token, episode found, whitelisted, not ready, not a probe, no pending or
running job, empty job table so no cooldown either) does **not** enqueue a
processing job — the job table stays empty, so in particular no job with
`trigger_source = "on_demand_rss"` exists — and the response is the 503
NOT_PROCESSED outcome with Retry-After 300. -/
theorem C1_counterexample :
    ((api_download_post [samplePost] "ep-1" (some 7) (some sampleToken) []
        "GET" none emptyStore).2.jobs = [])
    ∧ ((api_download_post [samplePost] "ep-1" (some 7) (some sampleToken) []
        "GET" none emptyStore).1.status = 503)
    ∧ ((api_download_post [samplePost] "ep-1" (some 7) (some sampleToken) []
        "GET" none emptyStore).1.retry_after = some 300)
    ∧ ((api_download_post [samplePost] "ep-1" (some 7) (some sampleToken) []
        "GET" none emptyStore).1.decision = "NOT_PROCESSED") := by
  refine ⟨rfl, rfl, rfl, rfl⟩

/-- Claim C1 (amended): for every non-probe download request by a caller who
may trigger (feed-scoped token matching the episode's feed, or a subscribed
session) against a found, whitelisted, not-ready episode with no pending or
running job, the handler enqueues **no** job and returns the 503
NOT_PROCESSED outcome with Retry-After 300 that directs the user to the
trigger link; the store is unchanged. -/
theorem C1_amended_download_never_enqueues (posts : List Post) (p_guid : String)
    (cu : Option Nat) (ft : Option FeedTokenAuthResult)
    (subs : List (Nat × Nat)) (method : String) (range_header : Option Chars)
    (st : Store) (post : Post)
    (hfind : posts.find? (fun p => p.guid == p_guid) = some post)
    (hwl : post.whitelisted = true)
    (hnr : postIsReady st post = false)
    (hnp : classify_probe method range_header = false)
    (hct : (classifyDownloadAuth ft cu subs post).can_trigger_processing = true)
    (hact : findActiveJob st.jobs post.guid = none) :
    api_download_post posts p_guid cu ft subs method range_header st
      = (⟨503,
          "Episode not yet processed. Click the episode link in your podcast app to start processing.",
          some 300, "NOT_PROCESSED"⟩, st) := by
  have hread := canTrigger_imp_read ft cu subs post hct
  unfold api_download_post
  rw [hfind]
  dsimp only
  simp [hwl, hnr, hnp, hct, hread, hact]

/-- Claim C1, witness for the amended theorem at a concrete input. -/
theorem C1_witness :
    api_download_post [samplePost] "ep-1" (some 7) (some sampleToken) []
        "GET" none emptyStore
      = (⟨503,
          "Episode not yet processed. Click the episode link in your podcast app to start processing.",
          some 300, "NOT_PROCESSED"⟩, emptyStore) :=
  C1_amended_download_never_enqueues [samplePost] "ep-1" (some 7)
    (some sampleToken) [] "GET" none emptyStore samplePost rfl rfl rfl rfl rfl rfl

/-- Claim C2: for every sequence of download requests made with a combined
token (`feed_id = none`) against a found, whitelisted, unprocessed episode,
the job table after the whole sequence equals the job table before — zero
jobs are ever created — and every individual non-probe request in the
sequence is answered with the 503 read-only refusal carrying
Retry-After 300. -/
theorem C2_combined_token_inviolability (posts : List Post) (p_guid : String)
    (cu : Option Nat) (tok : FeedTokenAuthResult) (subs : List (Nat × Nat))
    (reqs : List (String × Option Chars)) (st : Store) (post : Post)
    (hfind : posts.find? (fun p => p.guid == p_guid) = some post)
    (hwl : post.whitelisted = true)
    (hnr : postIsReady st post = false)
    (hcomb : tok.feed_id = none) :
    ((runDownloadRequests posts p_guid cu (some tok) subs reqs st).2.jobs = st.jobs)
    ∧ ∀ pr ∈ reqs.zip (runDownloadRequests posts p_guid cu (some tok) subs reqs st).1,
        classify_probe pr.1.1 pr.1.2 = false →
        pr.2 = ⟨503, "Episode not yet processed", some 300, "NO_TRIGGER_COMBINED"⟩ := by
  induction reqs generalizing st with
  | nil => exact ⟨rfl, by simp [runDownloadRequests]⟩
  | cons req rest ih =>
    obtain ⟨m, r⟩ := req
    have hnr1 : postIsReady (api_download_post posts p_guid cu (some tok) subs m r st).2 post = false := by
      rw [postIsReady_files_congr post
        (api_download_post_files posts p_guid cu (some tok) subs m r st)]
      exact hnr
    obtain ⟨ihjobs, ihresp⟩ :=
      ih (api_download_post posts p_guid cu (some tok) subs m r st).2 hnr1
    constructor
    · show (runDownloadRequests posts p_guid cu (some tok) subs ((m, r) :: rest) st).2.jobs = st.jobs
      rw [runDownloadRequests]
      dsimp only
      rw [ihjobs, api_download_post_jobs]
    · intro pr hpr hnp
      rw [runDownloadRequests] at hpr
      dsimp only at hpr
      rw [List.zip_cons_cons] at hpr
      rcases List.mem_cons.mp hpr with h | h
      · subst h
        dsimp only
        rw [combined_token_refusal posts p_guid cu tok subs m r st post
          hfind hwl hnr hcomb hnp]
      · exact ihresp pr h hnp

/-- Claim C2, witness: two full GETs with the combined token against the
sample unprocessed episode leave the job table empty. -/
theorem C2_witness :
    (runDownloadRequests [samplePost] "ep-1" (some 7) (some combinedToken) []
        [("GET", none), ("GET", none)] emptyStore).2.jobs = emptyStore.jobs :=
  (C2_combined_token_inviolability [samplePost] "ep-1" (some 7) combinedToken []
    [("GET", none), ("GET", none)] emptyStore samplePost rfl rfl rfl rfl).1

/-- Claim C5: a request classified as a probe (HEAD, or a small prefix Range)
against a found, whitelisted, not-ready episode gets the 204 no-content
response with an empty body, and the store — in particular the job table —
is completely unchanged. -/
theorem C5_probe_noop (posts : List Post) (p_guid : String)
    (cu : Option Nat) (ft : Option FeedTokenAuthResult)
    (subs : List (Nat × Nat)) (method : String) (range_header : Option Chars)
    (st : Store) (post : Post)
    (hfind : posts.find? (fun p => p.guid == p_guid) = some post)
    (hwl : post.whitelisted = true)
    (hnr : postIsReady st post = false)
    (hp : classify_probe method range_header = true) :
    api_download_post posts p_guid cu ft subs method range_header st
      = (⟨204, "", none, "PROBE"⟩, st) := by
  unfold api_download_post
  rw [hfind]
  dsimp only
  simp [hwl, hnr, hp]

/-- Claim C5, witness: a HEAD probe against the sample unprocessed episode. -/
theorem C5_witness :
    api_download_post [samplePost] "ep-1" none (some sampleToken) [] "HEAD"
        none emptyStore
      = (⟨204, "", none, "PROBE"⟩, emptyStore) :=
  C5_probe_noop [samplePost] "ep-1" none (some sampleToken) [] "HEAD" none
    emptyStore samplePost rfl rfl rfl rfl

/-- Claim C6: when a pending or running job exists for the episode's guid, a
non-probe download request by a caller who may trigger, against a found,
whitelisted, not-ready episode, returns 503 with Retry-After 120 and the
store — in particular the job table — is unchanged. -/
theorem C6_job_exists_wait (posts : List Post) (p_guid : String)
    (cu : Option Nat) (ft : Option FeedTokenAuthResult)
    (subs : List (Nat × Nat)) (method : String) (range_header : Option Chars)
    (st : Store) (post : Post)
    (hfind : posts.find? (fun p => p.guid == p_guid) = some post)
    (hwl : post.whitelisted = true)
    (hnr : postIsReady st post = false)
    (hnp : classify_probe method range_header = false)
    (hct : (classifyDownloadAuth ft cu subs post).can_trigger_processing = true)
    (hjob : ∃ j ∈ st.jobs, j.post_guid = post.guid
      ∧ (j.status = "pending" ∨ j.status = "running")) :
    api_download_post posts p_guid cu ft subs method range_header st
      = (⟨503, "Processing in progress", some 120, "JOB_EXISTS"⟩, st) := by
  have hread := canTrigger_imp_read ft cu subs post hct
  obtain ⟨j, hj⟩ := findActiveJob_of_mem hjob
  unfold api_download_post
  rw [hfind]
  dsimp only
  simp [hwl, hnr, hnp, hct, hread, hj]

/-- Claim C6, witness: a full GET with the matching feed-scoped token while a
pending job exists for the episode. -/
theorem C6_witness :
    api_download_post [samplePost] "ep-1" (some 7) (some sampleToken) [] "GET"
        none activeJobStore
      = (⟨503, "Processing in progress", some 120, "JOB_EXISTS"⟩, activeJobStore) :=
  C6_job_exists_wait [samplePost] "ep-1" (some 7) (some sampleToken) [] "GET"
    none activeJobStore samplePost rfl rfl rfl rfl rfl
    ⟨pendingJob, by decide, rfl, Or.inl rfl⟩

/-- Claim C7: a /trigger request with a valid feed-scoped token whose feed id
differs from the target episode's feed id is rejected with the 403
"Access Denied" page and the store — in particular the job table — is
unchanged, so zero jobs are created. -/
theorem C7_trigger_feed_mismatch (g tid sec : String)
    (a : FeedTokenAuthResult) (posts : List Post) (now : Nat) (st : Store)
    (post : Post) (tf : Nat)
    (hg : g ≠ "") (htid : tid ≠ "") (hsec : sec ≠ "")
    (hfa : a.feed_id = some tf)
    (hfind : posts.find? (fun p => p.guid == g) = some post)
    (hmm : post.feed_id ≠ some tf) :
    _handle_trigger_processing (some g) (some tid) (some sec)
        (.ok a) posts now st
      = (⟨403, "Access Denied"⟩, st) := by
  have hg' : (g == "") = false := beq_eq_false_iff_ne.mpr hg
  have htid' : (tid == "") = false := beq_eq_false_iff_ne.mpr htid
  have hsec' : (sec == "") = false := beq_eq_false_iff_ne.mpr hsec
  have hmm' : (post.feed_id == some tf) = false := beq_eq_false_iff_ne.mpr hmm
  unfold _handle_trigger_processing
  simp [paramMissing, hg', htid', hsec', hfa, hfind, hmm']

/-- Claim C7, witness: a feed-2 token against the feed-1 sample episode. -/
theorem C7_witness :
    _handle_trigger_processing (some "ep-1") (some "t") (some "s")
        (.ok mismToken) [samplePost] 0 emptyStore
      = (⟨403, "Access Denied"⟩, emptyStore) :=
  C7_trigger_feed_mismatch "ep-1" "t" "s" mismToken [samplePost] 0 emptyStore
    samplePost 2 (by decide) (by decide) (by decide) rfl rfl (by decide)

/-- Claim C4, counterexample: the cooldown is not enforced across every
job-creating entry point.  With the job table holding exactly one job for the
episode, created at time 1000 (status completed), a call to the manual
`api_process_post` entry point at time 1010 — only 10 seconds later, far
inside the 600-second window — creates a second job (created at 1010). -/
theorem C4_counterexample :
    ((api_process_post [samplePost] "ep-1" (some 7) 1010 cooldownStore).2.jobs.length = 2)
    ∧ (∃ j ∈ (api_process_post [samplePost] "ep-1" (some 7) 1010 cooldownStore).2.jobs,
        j.created_at = some 1010)
    ∧ latestJob cooldownStore.jobs "ep-1" = some doneJob
    ∧ doneJob.created_at = some 1000
    ∧ 1010 - 1000 < TRIGGER_COOLDOWN_SECONDS := by
  exact ⟨rfl, by decide, rfl, rfl, by decide⟩

/-- Claim C4 (amended): the /trigger entry point does enforce the cooldown
from durable creation timestamps: whenever a trigger request changes the job
table and the most recently created job for the requested guid carries a
creation time `t`, at least `TRIGGER_COOLDOWN_SECONDS` have elapsed since
`t`. -/
theorem C4_amended_trigger_cooldown (guid token_id secret : Option String)
    (a : FeedTokenAuthResult) (posts : List Post) (now : Nat) (st : Store)
    (last : ProcessingJob) (t : Nat)
    (hchanged : (_handle_trigger_processing guid token_id secret (.ok a)
      posts now st).2.jobs ≠ st.jobs)
    (hlast : latestJob st.jobs (guid.getD "") = some last)
    (ht : last.created_at = some t) :
    TRIGGER_COOLDOWN_SECONDS ≤ now - t := by
  unfold _handle_trigger_processing at hchanged
  by_cases hp : (paramMissing guid || paramMissing token_id || paramMissing secret) = true
  · rw [if_pos hp] at hchanged
    exact absurd rfl hchanged
  · rw [if_neg hp] at hchanged
    dsimp only at hchanged
    rcases hfa : a.feed_id with _ | tf
    all_goals rw [hfa] at hchanged
    · exact absurd rfl hchanged
    · dsimp only at hchanged
      rcases hfind : posts.find? (fun p => p.guid == guid.getD "") with _ | post
      all_goals rw [hfind] at hchanged
      · exact absurd rfl hchanged
      · dsimp only at hchanged
        have hpg : post.guid = guid.getD "" := by
          simpa using List.find?_some hfind
        by_cases hmm : (! (post.feed_id == some tf)) = true
        · rw [if_pos hmm] at hchanged
          exact absurd rfl hchanged
        · rw [if_neg hmm] at hchanged
          by_cases hwl : (! post.whitelisted) = true
          · rw [if_pos hwl] at hchanged
            exact absurd rfl hchanged
          · rw [if_neg hwl] at hchanged
            by_cases hready : postIsReady (_record_user_event st post
                (some a.user_id) "TRIGGER_OPEN" "feed_scoped" "" "trigger") post = true
            · rw [if_pos hready] at hchanged
              exact absurd rfl hchanged
            · rw [if_neg hready] at hchanged
              rcases hact : findActiveJob (_record_user_event st post
                  (some a.user_id) "TRIGGER_OPEN" "feed_scoped" "" "trigger").jobs
                  post.guid with _ | j
              all_goals rw [hact] at hchanged
              · dsimp only at hchanged
                have hlat : latestJob (_record_user_event st post
                    (some a.user_id) "TRIGGER_OPEN" "feed_scoped" "" "trigger").jobs
                    post.guid = some last := by
                  rw [show (_record_user_event st post (some a.user_id)
                    "TRIGGER_OPEN" "feed_scoped" "" "trigger").jobs = st.jobs from rfl,
                    hpg]
                  exact hlast
                rw [hlat] at hchanged
                dsimp only at hchanged
                rw [ht] at hchanged
                dsimp only at hchanged
                by_cases hcd : now - t < TRIGGER_COOLDOWN_SECONDS
                · rw [if_pos hcd] at hchanged
                  exact absurd rfl hchanged
                · omega
              · exact absurd rfl hchanged

/-- Claim C4, witness for the amended theorem: a trigger at time 800 against
an episode whose only previous job was created at time 100 creates a job, and
the theorem yields that the 600-second cooldown had indeed elapsed. -/
theorem C4_witness : TRIGGER_COOLDOWN_SECONDS ≤ 800 - 100 :=
  C4_amended_trigger_cooldown (some "ep-1") (some "t") (some "s") sampleToken
    [samplePost] 800 oldJobStore { doneJob with created_at := some 100 } 100
    (by decide) rfl rfl

/-- Claim C8: every response of the /api/trigger/status endpoint carries
`Cache-Control: no-store`, no response has status 500, and when an unexpected
fault occurs inside the handler the wrapper degrades it to a 200 response
whose state is "error". -/
theorem C8_status_no_store_never_500 (method : String)
    (guid token_id secret : Option String) (auth : AuthOutcome)
    (posts : List Post) (st : Store) (fault : Option Unit) :
    ((trigger_status method guid token_id secret auth posts st fault).cache_control
      = some "no-store")
    ∧ ((trigger_status method guid token_id secret auth posts st fault).status ≠ 500)
    ∧ (∀ u, fault = some u → (method == "OPTIONS") = false →
        (trigger_status method guid token_id secret auth posts st fault).status = 200
        ∧ (trigger_status method guid token_id secret auth posts st fault).state
          = "error") := by
  refine ⟨?_, ?_, ?_⟩
  · unfold trigger_status _handle_trigger_status
    repeat' (first | rfl | split)
  · unfold trigger_status _handle_trigger_status
    repeat' split
    all_goals simp
  · intro u hu hm
    subst hu
    unfold trigger_status
    simp [hm]

/-- Claim C8, witness: an injected fault on a plain GET yields the degraded
200 "error" payload with the no-store header. -/
theorem C8_witness :
    ((trigger_status "GET" none none none .invalid [] emptyStore (some ())).cache_control
      = some "no-store")
    ∧ ((trigger_status "GET" none none none .invalid [] emptyStore (some ())).status = 200)
    ∧ ((trigger_status "GET" none none none .invalid [] emptyStore (some ())).state
      = "error") := by
  have h := C8_status_no_store_never_500 "GET" none none none .invalid []
    emptyStore (some ())
  exact ⟨h.1, (h.2.2 () rfl rfl).1, (h.2.2 () rfl rfl).2⟩

/-- Claim C9, counterexample: the projection does not clamp the derived
progress to [0, 100] on every job — for a running job with
`current_step = -1` and a null `progress_percentage`, the derived progress is
`min 100 (trunc(-1 * 100 / 4)) = -25`, which is negative. -/
theorem C9_counterexample :
    ((_normalize_job negStepJob none).progress_percentage = -25)
    ∧ ¬ (0 ≤ (_normalize_job negStepJob none).progress_percentage) := by
  exact ⟨rfl, by decide⟩

/-- Claim C9 (amended): the projection is total and defaults every nullable
field: a null `current_step` becomes 0; a null `total_steps` becomes 4 and
the used `total_steps` is always positive; a null `step_name` is taken from
the fixed step table (default "Processing"); an explicitly present progress
is clamped to [0, 100]; a derived progress is capped at 100 and is
non-negative whenever the effective `current_step` is non-negative; and
status maps pending to "queued", running to "processing", completed to
"ready", failed to "failed". -/
theorem C9_amended_normalize_total (job : ProcessingJob) (url : Option String) :
    ((job.current_step = none → (_normalize_job job url).current_step = 0)
    ∧ (job.total_steps = none → (_normalize_job job url).total_steps = 4)
    ∧ (0 < (_normalize_job job url).total_steps)
    ∧ (job.step_name = none →
        (_normalize_job job url).step_name
          = (STEP_NAMES (_normalize_job job url).current_step).getD "Processing")
    ∧ (∀ p, job.progress_percentage = some p →
        0 ≤ (_normalize_job job url).progress_percentage
        ∧ (_normalize_job job url).progress_percentage ≤ 100)
    ∧ (job.progress_percentage = none →
        (_normalize_job job url).progress_percentage ≤ 100
        ∧ (0 ≤ (_normalize_job job url).current_step →
            0 ≤ (_normalize_job job url).progress_percentage))
    ∧ (job.status = "pending" → (_normalize_job job url).state = "queued")
    ∧ (job.status = "running" → (_normalize_job job url).state = "processing")
    ∧ (job.status = "completed" → (_normalize_job job url).state = "ready")
    ∧ (job.status = "failed" → (_normalize_job job url).state = "failed")) := by
  unfold _normalize_job
  dsimp only
  refine ⟨?_, ?_, ?_, ?_, ?_, ?_, ?_, ?_, ?_, ?_⟩
  · intro h
    rw [h]
    rfl
  · intro h
    rw [h]
  · rcases h : job.total_steps with _ | t
    · simp
    · dsimp only
      split
      · next hcond => exact hcond.2
      · simp
  · intro h
    rw [h]
  · intro p h
    rw [h]
    constructor
    · exact le_max_left 0 _
    · exact max_le (by norm_num) (min_le_left _ _)
  · intro h
    rw [h]
    dsimp only
    constructor
    · split
      · exact min_le_left _ _
      · norm_num
    · intro hc
      split
      · next hpos =>
        exact le_min (by norm_num)
          (Int.tdiv_nonneg (by positivity) (le_of_lt hpos))
      · exact le_refl 0
  · intro h
    rw [h]
    rfl
  · intro h
    rw [h]
    rfl
  · intro h
    rw [h]
    rfl
  · intro h
    rw [h]
    rfl

/-- Claim C9, witness: a pending job whose nullable fields are all null gets
step 0 of 4, the table step name would apply, and state "queued". -/
theorem C9_witness :
    ((_normalize_job blankJob none).current_step = 0)
    ∧ ((_normalize_job blankJob none).total_steps = 4)
    ∧ ((_normalize_job blankJob none).state = "queued")
    ∧ (0 ≤ (_normalize_job blankJob none).progress_percentage) := by
  have h := C9_amended_normalize_total blankJob none
  exact ⟨h.1 rfl, h.2.1 rfl, h.2.2.2.2.2.2.1 rfl,
    (h.2.2.2.2.2.1 rfl).2 (by rw [h.1 rfl])⟩

/-- Characterization of `_is_probe_request`: it accepts exactly the headers
of the form `bytes=` ++ spec where spec has no comma, splits on "-" into
exactly a start and an end part, the start part is empty or parses to 0, and
the end part parses to a value below 1 MiB. -/
theorem is_probe_request_iff (r : Option Chars) :
    _is_probe_request r = true ↔
      ∃ spec s e v, r = some (bytesTag ++ spec) ∧ ¬ (',' ∈ spec) ∧
        splitOnDash spec = [s, e] ∧ (s = [] ∨ pyIntNonneg s = some 0) ∧
        pyIntNonneg e = some v ∧ v < PROBE_MAX_BYTES := by
  cases r with
  | none => simp [_is_probe_request]
  | some l =>
    constructor
    · intro h
      unfold _is_probe_request at h
      dsimp only at h
      by_cases hemp : l.isEmpty = true
      · rw [if_pos hemp] at h
        simp at h
      · rw [if_neg hemp] at h
        by_cases hpre : (! listStartsWith bytesTag l) = true
        · rw [if_pos hpre] at h
          simp at h
        · rw [if_neg hpre] at h
          have hpre2 : listStartsWith bytesTag l = true := by
            revert hpre
            cases listStartsWith bytesTag l <;> simp
          obtain ⟨t, rfl⟩ := listStartsWith_iff.mp hpre2
          rw [drop_six] at h
          by_cases hcon : (t.contains ',') = true
          · rw [if_pos hcon] at h
            simp at h
          · rw [if_neg hcon] at h
            have hnc : ¬ ',' ∈ t := by
              apply contains_false_iff.mp
              revert hcon
              cases t.contains ',' <;> simp
            rcases hsp : splitOnDash t with _ | ⟨s, _ | ⟨e, _ | ⟨x, rest3⟩⟩⟩
            · rw [hsp] at h
              simp at h
            · rw [hsp] at h
              simp at h
            · rw [hsp] at h
              dsimp only at h
              by_cases hse : s.isEmpty = true
              · rw [if_pos hse] at h
                dsimp only at h
                rw [if_neg (by omega : ¬ (0 : Nat) > 0)] at h
                by_cases hee : e.isEmpty = true
                · rw [if_pos hee] at h
                  simp at h
                · rw [if_neg hee] at h
                  rcases hpe : pyIntNonneg e with _ | v
                  · rw [hpe] at h
                    simp at h
                  · rw [hpe] at h
                    dsimp only at h
                    exact ⟨t, s, e, v, rfl, hnc, hsp,
                      Or.inl (List.isEmpty_iff.mp hse), hpe, of_decide_eq_true h⟩
              · rw [if_neg hse] at h
                rcases hps : pyIntNonneg s with _ | start
                · rw [hps] at h
                  simp at h
                · rw [hps] at h
                  dsimp only at h
                  by_cases hgt : start > 0
                  · rw [if_pos hgt] at h
                    simp at h
                  · rw [if_neg hgt] at h
                    have hs0 : start = 0 := by omega
                    subst hs0
                    by_cases hee : e.isEmpty = true
                    · rw [if_pos hee] at h
                      simp at h
                    · rw [if_neg hee] at h
                      rcases hpe : pyIntNonneg e with _ | v
                      · rw [hpe] at h
                        simp at h
                      · rw [hpe] at h
                        dsimp only at h
                        exact ⟨t, s, e, v, rfl, hnc, hsp, Or.inr hps, hpe,
                          of_decide_eq_true h⟩
            · rw [hsp] at h
              simp at h
    · rintro ⟨spec, s, e, v, heq, hnc, hsp, hs, hpe, hv⟩
      injection heq with heq
      subst heq
      unfold _is_probe_request
      dsimp only
      have hemp : (bytesTag ++ spec).isEmpty = false := rfl
      have hpre : listStartsWith bytesTag (bytesTag ++ spec) = true :=
        listStartsWith_append _ _
      have hcon : (spec.contains ',') = false := contains_false_iff.mpr hnc
      have hee : e.isEmpty = false := by
        cases e with
        | nil => rw [pyIntNonneg_nil] at hpe; cases hpe
        | cons _ _ => rfl
      rcases hs with rfl | hs0
      · simp [hemp, hpre, hcon, drop_six, hsp, hee, hpe, hv]
        exact hnc
      · have hse : s.isEmpty = false := by
          cases s with
          | nil => rw [pyIntNonneg_nil] at hs0; cases hs0
          | cons _ _ => rfl
        simp [hemp, hpre, hcon, drop_six, hsp, hse, hs0, hee, hpe, hv]
        exact hnc

/-- Claim C3, counterexample: on the suffix range `bytes=-5` the classifier
returns Probe, while the specification's decision table — Probe exactly for
HEAD or `bytes=<start>-<end>` with a present start of value 0 and a present
end below 1 MiB, everything else (including malformed or non-matching
syntax) Real — classifies it as Real. -/
theorem C3_counterexample :
    (classify_probe "GET" (some "bytes=-5".data) = true)
    ∧ (spec_is_probe "GET" (some "bytes=-5".data) = false) := by
  exact ⟨rfl, rfl⟩

/-- Claim C3 (amended): the classifier returns Probe exactly when the method
is HEAD, or the Range header is `bytes=` followed by a comma-free spec that
splits on "-" into a start part and an end part, where the start part is
empty (a suffix range, treated as start 0) or parses to 0, and the end part
parses to a value below 1 MiB; numbers are parsed as Python's `int()` parses
them.  All other inputs — no header, open-ended `bytes=0-`, a positive
start, a large end, multiple ranges, or malformed syntax — are Real. -/
theorem C3_amended_probe_characterization (method : String) (r : Option Chars) :
    classify_probe method r = true ↔
      (method = "HEAD" ∨
        ∃ spec s e v, r = some (bytesTag ++ spec) ∧ ¬ (',' ∈ spec) ∧
          splitOnDash spec = [s, e] ∧ (s = [] ∨ pyIntNonneg s = some 0) ∧
          pyIntNonneg e = some v ∧ v < PROBE_MAX_BYTES) := by
  unfold classify_probe
  rw [Bool.or_eq_true]
  exact or_congr beq_iff_eq (is_probe_request_iff r)

/-- Claim C10: for every suffix-form Range header `bytes=-N` (empty start,
digit string N), the classifier treats the missing start as 0 and returns
Probe whenever the value of N is below 1 MiB. -/
theorem C10_suffix_range_is_probe (ds : Chars) (h1 : ds ≠ [])
    (h2 : ∀ c ∈ ds, c.isDigit = true)
    (h3 : decimalValue ds < PROBE_MAX_BYTES) :
    classify_probe "GET" (some ("bytes=-".data ++ ds)) = true := by
  have key : "bytes=-".data ++ ds = bytesTag ++ ('-' :: ds) := rfl
  unfold classify_probe _is_probe_request
  rw [key]
  dsimp only
  have hemp : (bytesTag ++ ('-' :: ds)).isEmpty = false := rfl
  have hpre : listStartsWith bytesTag (bytesTag ++ ('-' :: ds)) = true :=
    listStartsWith_append _ _
  have hnodash : ∀ c ∈ ds, (c == '-') = false := fun c hc =>
    digit_beq_false (h2 c hc) (by decide)
  have hsplit : splitOnDash ('-' :: ds) = [[], ds] := by
    rw [splitOnDash.eq_def]
    simp [splitOnDash_no_dash hnodash]
  have hcomma : (('-' :: ds).contains ',') = false := by
    apply contains_false_iff.mpr
    intro hm
    rcases List.mem_cons.mp hm with h | h
    · cases h
    · have := h2 ',' h
      simp at this
  have hdne : ds.isEmpty = false := by
    cases ds with
    | nil => exact absurd rfl h1
    | cons _ _ => rfl
  simp [hemp, hpre, drop_six, hcomma, hsplit, hdne,
    pyIntNonneg_all_digits h1 h2, h3]
  intro hm
  have := h2 ',' hm
  simp at this

/-- Claim C10, witness: `bytes=-1023` is classified as a probe. -/
theorem C10_witness :
    classify_probe "GET" (some ("bytes=-".data ++ "1023".data)) = true :=
  C10_suffix_range_is_probe "1023".data (by decide) (by decide) (by decide)

end Podly
